import Mathlib

/-
Verification of the cppx project-build orchestrator.

Shallow embedding of the C++ sources (src/helpers.hpp, src/helpers.cpp,
src/main.cpp) into Lean. TOML documents are modelled structurally:
an array is a list of nodes (string nodes and opaque non-string nodes),
tables that matter to the claims are modelled as structures with
Option-valued fields (none = key absent or not of the expected type).
Filesystem and process effects are made explicit: external command
invocations become entries of a trace list, their exit status becomes a
Boolean oracle, and exceptions become Except.
-/

namespace Cppx

/-- A node of a TOML array: either a string value or some non-string node
(kept opaque, tagged so distinct non-string nodes stay distinguishable). -/
inductive TomlNode where
  | vstr (s : String)
  | other (tag : Nat)
deriving DecidableEq

/-- The predicate used by updateTomlArray's find_if lambda in
src/helpers.hpp lines 575-577: the node is a string and equals value. -/
def tomlNodeMatches (value : String) (n : TomlNode) : Bool :=
  match n with
  | TomlNode.vstr s => s == value
  | TomlNode.other _ => false

/-- Embedding of updateTomlArray (src/helpers.hpp lines 573-588): if some
node of the array is a string equal to value, the array is unchanged,
otherwise the value is appended at the end. -/
def updateTomlArray (arr : List TomlNode) (value : String) : List TomlNode :=
  if arr.any (tomlNodeMatches value) then arr else arr ++ [TomlNode.vstr value]

/-- Embedding of the watch callback of handle_watch (src/main.cpp lines
557-606), restricted to its effect on the "src files" array of the
configuration document. ignoredFiles is the ignored-files list of the
freshly loaded ProjectSettings, srcFiles is the current "src files" array,
name is the filename carried by the event. On a creation event: if the
name is in the ignored list the array is left alone; otherwise the string
"src/" ++ name is pushed at the back unconditionally. On a removal event
every string node equal to "src/" ++ name is dropped, order preserved. -/
def watchCallback (ignoredFiles : List String) (srcFiles : List TomlNode)
    (name : String) (created : Bool) : List TomlNode :=
  if created then
    if ignoredFiles.contains name then srcFiles
    else srcFiles ++ [TomlNode.vstr ("src/" ++ name)]
  else
    srcFiles.filter (fun n =>
      match n with
      | TomlNode.vstr s => !(s == "src/" ++ name)
      | TomlNode.other _ => true)

/-- Embedding of std::string::find(pat) == 0 on ref (src/helpers.cpp lines
137 and 185): pat occurs at position 0 of ref, i.e. ref starts with pat. -/
def refFind0 (ref pat : String) : Bool :=
  List.isPrefixOf pat.data ref.data

/-- The "root" object of a node's cpp_info in the installer report: each
field is the corresponding JSON array of strings when present and an
array, none otherwise. -/
structure CppInfoRoot where
  libs : Option (List String)
  includedirs : Option (List String)
  libdirs : Option (List String)
deriving DecidableEq

/-- A node's cpp_info object. fmt_libs models cpp_info._fmt.libs when that
key chain is present and an array; root models cpp_info.root. -/
structure CppInfo where
  fmt_libs : Option (List String)
  root : Option CppInfoRoot
deriving DecidableEq

/-- One node of the install_log.json dependency graph: its "ref" string
when present, and its "cpp_info" object when present. -/
structure LogNode where
  ref : Option String
  cpp_info : Option CppInfo
deriving DecidableEq

/-- The parsed install_log.json document. graphNodes is the list of nodes
of j["graph"]["nodes"] in iteration order when both keys are present,
none when either is missing. -/
structure InstallLog where
  graphNodes : Option (List LogNode)
deriving DecidableEq

/-- Embedding of PackageManager::loadInstallLog (src/helpers.cpp lines
112-124). The vendor directory's install_log.json content is passed as an
Option: none means the file does not exist, in which case the function
throws CPPX_Exception. -/
def loadInstallLog (file : Option InstallLog) : Except String InstallLog :=
  match file with
  | none => Except.error "install_log.json not found, install package first."
  | some j => Except.ok j

/-- Lookup of root[infoType] in a cpp_info root object, for the infoType
strings the code passes; any other key is absent. -/
def rootField (r : CppInfoRoot) (infoType : String) : Option (List String) :=
  if infoType == "libs" then r.libs
  else if infoType == "includedirs" then r.includedirs
  else if infoType == "libdirs" then r.libdirs
  else none

/-- The node-scanning loop of PackageManager::get_info_from_package
(src/helpers.cpp lines 132-168). absPath models fs::absolute. A node
without a "ref" key is skipped; a node whose ref starts with packageRef is
inspected: for infoType "libs" the _fmt.libs array is preferred, then
root.libs; for other infoTypes root[infoType] is returned with each path
made absolute when the infoType is includedirs or libdirs. When the
matching node yields nothing the loop continues with the later nodes. -/
def getInfoFromNodes (absPath : String → String) (packageRef infoType : String) :
    List LogNode → List String
  | [] => []
  | n :: rest =>
    match n.ref with
    | none => getInfoFromNodes absPath packageRef infoType rest
    | some ref =>
      if refFind0 ref packageRef then
        match n.cpp_info with
        | none => getInfoFromNodes absPath packageRef infoType rest
        | some ci =>
          if infoType == "libs" then
            match ci.fmt_libs with
            | some ls => ls
            | none =>
              match ci.root with
              | some r =>
                match r.libs with
                | some ls => ls
                | none => getInfoFromNodes absPath packageRef infoType rest
              | none => getInfoFromNodes absPath packageRef infoType rest
          else
            match ci.root with
            | some r =>
              match rootField r infoType with
              | some paths =>
                if infoType == "includedirs" || infoType == "libdirs" then
                  paths.map absPath
                else paths
              | none => getInfoFromNodes absPath packageRef infoType rest
            | none => getInfoFromNodes absPath packageRef infoType rest
      else getInfoFromNodes absPath packageRef infoType rest

/-- Embedding of PackageManager::get_info_from_package (src/helpers.cpp
lines 126-170): load the install log (propagating the exception when the
file is missing), return the empty list when the graph/nodes keys are
missing, otherwise scan the nodes. -/
def get_info_from_package (absPath : String → String) (file : Option InstallLog)
    (packageRef infoType : String) : Except String (List String) :=
  match loadInstallLog file with
  | Except.error e => Except.error e
  | Except.ok j =>
    match j.graphNodes with
    | none => Except.ok []
    | some nodes => Except.ok (getInfoFromNodes absPath packageRef infoType nodes)

/-- Embedding of PackageManager::checkIfInstalled (src/helpers.cpp lines
172-194): the CPPX_Exception thrown by loadInstallLog is caught and turns
into false; missing graph/nodes keys give false; otherwise true exactly
when some node has a ref starting with packageRef. -/
def checkIfInstalled (file : Option InstallLog) (packageRef : String) : Bool :=
  match file with
  | none => false
  | some j =>
    match j.graphNodes with
    | none => false
    | some nodes =>
      nodes.any (fun n =>
        match n.ref with
        | none => false
        | some ref => refFind0 ref packageRef)

/-- PackageManager::PackageInfo (src/helpers.hpp lines 106-112). -/
structure PackageInfo where
  packageRef : String
  libs : List String
  includePaths : List String
  libPaths : List String
deriving DecidableEq

/-- Embedding of PackageManager::getPackageInfo (src/helpers.cpp lines
75-83): three get_info_from_package calls; an exception from any of them
(only the missing-log exception is possible) propagates. -/
def getPackageInfo (absPath : String → String) (file : Option InstallLog)
    (packageRef : String) : Except String PackageInfo :=
  match get_info_from_package absPath file packageRef "libs" with
  | Except.error e => Except.error e
  | Except.ok libs =>
    match get_info_from_package absPath file packageRef "includedirs" with
    | Except.error e => Except.error e
    | Except.ok includePaths =>
      match get_info_from_package absPath file packageRef "libdirs" with
      | Except.error e => Except.error e
      | Except.ok libPaths =>
        Except.ok { packageRef := packageRef, libs := libs,
                    includePaths := includePaths, libPaths := libPaths }

/-- An observable side effect of PackageManager::remove: running the
external removal command, or deleting the local vendor subdirectory. -/
inductive RemoveEffect where
  | execRemoveCmd (cmd : String)
  | deleteLocalDir (dir : String)
deriving DecidableEq

/-- Embedding of PackageManager::remove (src/helpers.cpp lines 85-110).
file is the install_log.json content (none = missing), removeCmdOk the
exit status of the external removal command, localDirExists whether
vendor/packageRef exists. Returns the function result (none when the
package is not installed, the captured PackageInfo otherwise, or the
propagated exception) together with the trace of external effects in
order. -/
def removePackage (absPath : String → String) (vendor : String)
    (file : Option InstallLog) (removeCmdOk : Bool) (localDirExists : Bool)
    (packageRef : String) : Except String (Option PackageInfo) × List RemoveEffect :=
  if !(checkIfInstalled file packageRef) then
    (Except.ok none, [])
  else
    match getPackageInfo absPath file packageRef with
    | Except.error e => (Except.error e, [])
    | Except.ok info =>
      let cmdRemove := "conan remove " ++ packageRef ++ " -f"
      if !removeCmdOk then
        (Except.error "Failed to remove package from Conan cache.",
         [RemoveEffect.execRemoveCmd cmdRemove])
      else if localDirExists then
        (Except.ok (some info),
         [RemoveEffect.execRemoveCmd cmdRemove,
          RemoveEffect.deleteLocalDir (vendor ++ "/" ++ packageRef)])
      else
        (Except.ok (some info), [RemoveEffect.execRemoveCmd cmdRemove])

/-- The build-output kind (enum class buildType, src/helpers.hpp lines
286-291). -/
inductive buildType where
  | BUILD_EXECUTABLE
  | BUILD_STATICLINK
  | BUILD_DYNAMICLINK
deriving DecidableEq

/-- struct BuildSettings (src/helpers.hpp lines 293-302). A
default-constructed BuildSettings has an empty outputName and an
uninitialized btype, modelled as none. -/
structure BuildSettings where
  outputName : String
  btype : Option buildType
deriving DecidableEq

/-- The [build] table of config.toml as read by getProjectSettings:
build_name and build_type are the values of those keys when present and
strings, none otherwise (value_or supplies the defaults). -/
structure BuildTable where
  build_name : Option String
  build_type : Option String
deriving DecidableEq

/-- The build_type dispatch of getProjectSettings (src/helpers.cpp lines
421-436): "executable" and "_default" give the executable kind, "shared"
and "dynamic" the shared-library kind, "static" the static-archive kind,
and anything else throws the invalid-build-type CPPX_Exception. -/
def parseBuildType (t : String) : Except String buildType :=
  if t == "executable" || t == "_default" then Except.ok buildType.BUILD_EXECUTABLE
  else if t == "shared" || t == "dynamic" then Except.ok buildType.BUILD_DYNAMICLINK
  else if t == "static" then Except.ok buildType.BUILD_STATICLINK
  else Except.error "Invalid configuration: Invalid build type!"

/-- The BuildSettings portion of getProjectSettings (src/helpers.cpp lines
417-441). build is the [build] table of the parsed document, none when
the section is absent, in which case the default-constructed BuildSettings
is returned untouched. When the table is present, build_name defaults to
"_default" via value_or, the build type is dispatched (an exception there
aborts the load), and finally an outputName equal to "_default" is
replaced by the project name. -/
def parseBuildSettings (projName : String) (build : Option BuildTable) :
    Except String BuildSettings :=
  match build with
  | none => Except.ok { outputName := "", btype := none }
  | some b =>
    match parseBuildType (b.build_type.getD "_default") with
    | Except.error e => Except.error e
    | Except.ok bt =>
      let on0 := b.build_name.getD "_default"
      Except.ok { outputName := if on0 == "_default" then projName else on0,
                  btype := some bt }

/-- One entry of the optional [configurations] table of config.toml:
flags is the "flags" array when present (string and non-string nodes),
output the "output" string when present. -/
structure NamedConfig where
  flags : Option (List TomlNode)
  output : Option String
deriving DecidableEq

/-- The flag-collection loop of handle_build (src/main.cpp lines 377-384):
only string elements of the flags array are kept, in order. -/
def collectStringFlags (arr : List TomlNode) : List String :=
  arr.filterMap (fun n =>
    match n with
    | TomlNode.vstr s => some s
    | TomlNode.other _ => none)

/-- The named-configuration resolution of handle_build (src/main.cpp lines
367-397). defaultOutput is ps.buildsettings.outputName; cfgs is the
[configurations] table (none when absent), given as an association list in
table order; buildConfig is the requested configuration name. Returns the
extra flags, the output name, and whether the not-found warning was
printed. The build always proceeds past this step: no branch aborts. -/
def resolveBuildConfig (defaultOutput : String)
    (cfgs : Option (List (String × NamedConfig))) (buildConfig : String) :
    List String × String × Bool :=
  match cfgs with
  | none => ([], defaultOutput, false)
  | some table =>
    if buildConfig == "" then ([], defaultOutput, false)
    else
      match table.lookup buildConfig with
      | some conf =>
        let flags := match conf.flags with
          | some arr => collectStringFlags arr
          | none => []
        let out := match conf.output with
          | some o => o
          | none => defaultOutput
        (flags, out, false)
      | none => ([], defaultOutput, true)

/-- struct Toolchain (src/helpers.hpp lines 265-274). -/
structure Toolchain where
  compilerName : String
  compilerPath : String
  compilerVersion : String
deriving DecidableEq

/-- struct ProjectConfig (src/helpers.hpp lines 276-284). -/
structure ProjectConfig where
  path : String
  name : String
  toolchain : Toolchain
deriving DecidableEq

/-- The [project] table of the global .cppxglobal.toml document: name and
path values when present and strings (value_or supplies the sentinel
defaults). -/
structure GlobalProjectTable where
  name : Option String
  path : Option String
deriving DecidableEq

/-- The [toolchain] table of the global document. -/
structure GlobalToolchainTable where
  compiler : Option String
  path : Option String
  version : Option String
deriving DecidableEq

/-- The parsed global .cppxglobal.toml document (a missing file parses as
an empty table, hence both fields none). -/
structure GlobalDoc where
  project : Option GlobalProjectTable
  toolchain : Option GlobalToolchainTable
deriving DecidableEq

/-- Embedding of getCurrentProject (src/helpers.cpp lines 224-293) from
the parsed global document on. A missing [project] table throws; the
name and path default to the sentinels "no name" and "no path"; a missing
[toolchain] table throws; the toolchain fields default to "no compiler",
"no path", "no version"; then any field equal to its sentinel makes the
load fail with the corresponding not-configured error (exception message
quotes elided). -/
def getCurrentProject (file : GlobalDoc) : Except String ProjectConfig :=
  match file.project with
  | none => Except.error "No project set! Use cppx project set."
  | some p =>
    let name := p.name.getD "no name"
    let path := p.path.getD "no path"
    match file.toolchain with
    | none => Except.error "Toolchain not configured."
    | some t =>
      let cn := t.compiler.getD "no compiler"
      let cp := t.path.getD "no path"
      let cv := t.version.getD "no version"
      if name == "no name" || path == "no path" then
        Except.error "No project set! Use cppx project set."
      else if cn == "no compiler" || cp == "no path" || cv == "no version" then
        Except.error "No toolchain set, run cppx profile."
      else
        Except.ok { path := path, name := name,
                    toolchain := { compilerName := cn, compilerPath := cp,
                                   compilerVersion := cv } }

/-- One external-tool invocation of the static-archive build: a per-file
compile step or the final ar archive step. -/
inductive BuildStep where
  | compileStep (src : String)
  | archiveStep
deriving DecidableEq

/-- Embedding of the BUILD_STATICLINK branch of handle_build (src/main.cpp
lines 458-488). compileOk gives the exit status of the compile command for
each source entry, arOk that of the ar command. Each source file is
compiled in list order; the first failing compile throws the
CPPX_Exception naming that source file and stops the loop, so the ar step
never runs; when every compile succeeds the ar step runs and its failure
throws the archive error. Returns the invocation trace in order together
with the outcome. -/
def staticLinkBuild (compileOk : String → Bool) (arOk : Bool) :
    List String → List BuildStep × Except String Unit
  | [] =>
    ([BuildStep.archiveStep],
     if arOk then Except.ok () else Except.error "Static archive creation failed.")
  | src :: rest =>
    if compileOk src then
      let r := staticLinkBuild compileOk arOk rest
      (BuildStep.compileStep src :: r.1, r.2)
    else
      ([BuildStep.compileStep src],
       Except.error ("Compilation of " ++ src ++ " failed."))

/-- A concrete installer-report node for the boundary test of the
dependency lookup: reference "zlib/1.3.1#abc123" with a _fmt.libs array. -/
def zlibNode : LogNode :=
  { ref := some "zlib/1.3.1#abc123",
    cpp_info := some { fmt_libs := some ["z"], root := none } }

/-- A concrete install log holding only zlibNode. -/
def zlibLog : InstallLog := { graphNodes := some [zlibNode] }

/-- A concrete install log holding a single boost node with no cpp_info. -/
def boostLog : InstallLog :=
  { graphNodes := some [{ ref := some "boost/1.0#aa", cpp_info := none }] }

/-- A concrete install log whose document lacks the graph/nodes keys. -/
def emptyLog : InstallLog := { graphNodes := none }

/-- C1: the watch callback's creation path is claimed to add the entry
"src/<name>" idempotently, leaving the src-files array unchanged when the
entry is already present. The code (src/main.cpp lines 574-577) pushes the
entry unconditionally after the ignored-files check: starting from an
array already containing "src/a.cpp", a creation event for "a.cpp" (not
ignored) yields the array with a duplicate appended, not the unchanged
array. -/
theorem watch_create_appends_duplicate :
    watchCallback [] [TomlNode.vstr "src/a.cpp"] "a.cpp" true =
      [TomlNode.vstr "src/a.cpp", TomlNode.vstr "src/a.cpp"] ∧
    watchCallback [] [TomlNode.vstr "src/a.cpp"] "a.cpp" true ≠
      [TomlNode.vstr "src/a.cpp"] := by
  refine ⟨rfl, ?_⟩
  decide

/-- C2: dependency lookup matches nodes whose reference starts with the
requested packageRef (src/helpers.cpp lines 137 and 185). A node with
reference "zlib/1.3.1#abc123" is therefore matched for the request
"zlib/1.3.1", but it is ALSO matched for the request "zlib/1.3", which the
claim forbids: both checkIfInstalled and get_info_from_package return it
on the shorter, version-prefix-colliding request. -/
theorem zlib_prefix_collision :
    checkIfInstalled (some zlibLog) "zlib/1.3.1" = true ∧
    checkIfInstalled (some zlibLog) "zlib/1.3" = true ∧
    get_info_from_package id (some zlibLog) "zlib/1.3" "libs" = Except.ok ["z"] := by
  refine ⟨by decide, by decide, ?_⟩
  rfl

/-- C5: when the package is not installed (checkIfInstalled is false),
PackageManager::remove returns nullopt immediately: no external command is
run and nothing is deleted, so the effect trace is empty. -/
theorem remove_not_installed_noop (absPath : String → String) (vendor : String)
    (file : Option InstallLog) (removeCmdOk localDirExists : Bool)
    (packageRef : String) (h : checkIfInstalled file packageRef = false) :
    removePackage absPath vendor file removeCmdOk localDirExists packageRef =
      (Except.ok none, []) := by
  simp [removePackage, h]

/-- Witness for C5: a log holding only a boost node, with zlib requested. -/
theorem remove_not_installed_noop_witness :
    removePackage id "vendor" (some boostLog) true true "zlib/1.3.1" =
      (Except.ok none, []) :=
  remove_not_installed_noop id "vendor" (some boostLog) true true "zlib/1.3.1"
    (by decide)

/-- C7: the add operation on a set-valued configuration array
(updateTomlArray) is a no-op when a string node equal to the value is
already present, and adding the same value twice yields the same array as
adding it once, order preserved (the second add hits the presence check). -/
theorem updateTomlArray_add_idempotent (arr : List TomlNode) (value : String) :
    (TomlNode.vstr value ∈ arr → updateTomlArray arr value = arr) ∧
    updateTomlArray (updateTomlArray arr value) value = updateTomlArray arr value := by
  have hmem : ∀ l : List TomlNode, TomlNode.vstr value ∈ l →
      l.any (tomlNodeMatches value) = true := by
    intro l hl
    exact List.any_eq_true.mpr ⟨TomlNode.vstr value, hl, by simp [tomlNodeMatches]⟩
  constructor
  · intro h
    simp [updateTomlArray, hmem arr h]
  · by_cases h : arr.any (tomlNodeMatches value) = true
    · simp [updateTomlArray, h]
    · have h2 : (arr ++ [TomlNode.vstr value]).any (tomlNodeMatches value) = true :=
        hmem _ (by simp)
      simp [updateTomlArray, h, h2]

/-- Witness for C7: adding a present value is a no-op, and a double add
equals a single add, at concrete inputs. -/
theorem updateTomlArray_add_idempotent_witness :
    updateTomlArray [TomlNode.vstr "src/a.cpp"] "src/a.cpp" =
      [TomlNode.vstr "src/a.cpp"] ∧
    updateTomlArray (updateTomlArray [] "src/a.cpp") "src/a.cpp" =
      updateTomlArray [] "src/a.cpp" :=
  ⟨(updateTomlArray_add_idempotent [TomlNode.vstr "src/a.cpp"] "src/a.cpp").1
     (by decide),
   (updateTomlArray_add_idempotent [] "src/a.cpp").2⟩

/-- C8: when install_log.json does not exist, loadInstallLog's exception
is caught by checkIfInstalled, which returns false, and when the document
lacks the graph/nodes keys checkIfInstalled also returns false; in both
states removePackage returns none with no external effects. -/
theorem is_installed_missing_log_false (absPath : String → String)
    (vendor : String) (removeCmdOk localDirExists : Bool) (packageRef : String) :
    checkIfInstalled none packageRef = false ∧
    checkIfInstalled (some emptyLog) packageRef = false ∧
    removePackage absPath vendor none removeCmdOk localDirExists packageRef =
      (Except.ok none, []) ∧
    removePackage absPath vendor (some emptyLog) removeCmdOk
      localDirExists packageRef = (Except.ok none, []) :=
  ⟨rfl, rfl, rfl, rfl⟩

/-- Helper for C3: in the static-archive build, when some source fails to
compile, there is a first failing index i: every earlier source compiles
successfully, and the build trace consists of exactly the compile steps of
the sources up to and including i, ending in the exception naming source i. -/
lemma staticLinkBuild_first_fail (compileOk : String → Bool) (arOk : Bool)
    (srcs : List String) (h : ∃ s ∈ srcs, compileOk s = false) :
    ∃ i : Nat, ∃ hi : i < srcs.length,
      compileOk (srcs.get ⟨i, hi⟩) = false ∧
      (∀ j : Nat, ∀ hj : j < i, compileOk (srcs.get ⟨j, Nat.lt_trans hj hi⟩) = true) ∧
      staticLinkBuild compileOk arOk srcs =
        ((srcs.take (i+1)).map BuildStep.compileStep,
         Except.error ("Compilation of " ++ srcs.get ⟨i, hi⟩ ++ " failed.")) := by
  induction srcs with
  | nil => simp at h
  | cons s rest ih =>
    cases hs : compileOk s with
    | false =>
      refine ⟨0, Nat.succ_pos _, by simpa using hs, ?_, ?_⟩
      · intro j hj
        exact absurd hj (Nat.not_lt_zero j)
      · simp [staticLinkBuild, hs]
    | true =>
      have hrest : ∃ x ∈ rest, compileOk x = false := by
        rcases h with ⟨x, hx, hxf⟩
        rcases List.mem_cons.mp hx with h1 | h2
        · subst h1
          rw [hs] at hxf
          cases hxf
        · exact ⟨x, h2, hxf⟩
      rcases ih hrest with ⟨i, hi, hfail, hpre, heq⟩
      refine ⟨i+1, by simpa using Nat.succ_lt_succ hi, by simpa using hfail, ?_, ?_⟩
      · intro j hj
        cases j with
        | zero => simpa using hs
        | succ j' => simpa using hpre j' (by omega)
      · simp [staticLinkBuild, hs, heq]

/-- C3: for every source list where some compile fails, the static-archive
build never invokes the archiver, and there is a first failing source i:
all sources before it were compiled successfully, the trace stops right
after the compile step of source i (no later file is compiled, no archive
step), and the raised error names exactly that source file. -/
theorem static_build_aborts_on_first_failure (compileOk : String → Bool)
    (arOk : Bool) (srcs : List String) (h : ∃ s ∈ srcs, compileOk s = false) :
    BuildStep.archiveStep ∉ (staticLinkBuild compileOk arOk srcs).1 ∧
    ∃ i : Nat, ∃ hi : i < srcs.length,
      compileOk (srcs.get ⟨i, hi⟩) = false ∧
      (∀ j : Nat, ∀ hj : j < i, compileOk (srcs.get ⟨j, Nat.lt_trans hj hi⟩) = true) ∧
      staticLinkBuild compileOk arOk srcs =
        ((srcs.take (i+1)).map BuildStep.compileStep,
         Except.error ("Compilation of " ++ srcs.get ⟨i, hi⟩ ++ " failed.")) := by
  rcases staticLinkBuild_first_fail compileOk arOk srcs h with ⟨i, hi, h1, h2, h3⟩
  constructor
  · rw [h3]
    intro hmem
    rcases List.mem_map.mp hmem with ⟨x, _, hx⟩
    cases hx
  · exact ⟨i, hi, h1, h2, h3⟩

/-- Witness for C3: three sources with the second failing; the archiver
never runs and the failure names the second file. -/
theorem static_build_aborts_witness :
    BuildStep.archiveStep ∉
      (staticLinkBuild (fun s => !(s == "b.cpp")) true ["a.cpp", "b.cpp", "c.cpp"]).1 ∧
    ∃ i : Nat, ∃ hi : i < (["a.cpp", "b.cpp", "c.cpp"] : List String).length,
      (fun s => !(s == "b.cpp")) ((["a.cpp", "b.cpp", "c.cpp"] : List String).get ⟨i, hi⟩) = false ∧
      (∀ j : Nat, ∀ hj : j < i,
        (fun s => !(s == "b.cpp")) ((["a.cpp", "b.cpp", "c.cpp"] : List String).get ⟨j, Nat.lt_trans hj hi⟩) = true) ∧
      staticLinkBuild (fun s => !(s == "b.cpp")) true ["a.cpp", "b.cpp", "c.cpp"] =
        (((["a.cpp", "b.cpp", "c.cpp"] : List String).take (i+1)).map BuildStep.compileStep,
         Except.error ("Compilation of " ++ (["a.cpp", "b.cpp", "c.cpp"] : List String).get ⟨i, hi⟩ ++ " failed.")) :=
  static_build_aborts_on_first_failure (fun s => !(s == "b.cpp")) true
    ["a.cpp", "b.cpp", "c.cpp"] ⟨"b.cpp", by decide, by decide⟩

/-- Counterexample for C4: a configuration document with no [build] table
has its build output name unset, yet the resulting BuildSettings keeps the
default-constructed empty outputName instead of the project name, because
the defaulting code runs only inside the branch where the [build] table
exists (src/helpers.cpp lines 418-441). -/
theorem outputName_default_counterexample :
    parseBuildSettings "myproj" none = Except.ok { outputName := "", btype := none } ∧
    ("" : String) ≠ "myproj" := by
  refine ⟨rfl, ?_⟩
  decide

/-- C4 (amended): for every parsed configuration document whose [build]
table is present with build_name unset, a successful load yields
buildsettings.outputName equal to the project name. -/
theorem outputName_defaults_to_project_name (projName : String) (b : BuildTable)
    (hbn : b.build_name = none) (bs : BuildSettings)
    (hok : parseBuildSettings projName (some b) = Except.ok bs) :
    bs.outputName = projName := by
  cases hpt : parseBuildType (b.build_type.getD "_default") with
  | error e =>
    simp [parseBuildSettings, hpt] at hok
  | ok bt =>
    simp [parseBuildSettings, hpt, hbn] at hok
    rw [← hok]

/-- Witness for C4 (amended): build table with build_name absent and
build_type "static"; the output name becomes the project name. -/
theorem outputName_defaults_witness :
    BuildSettings.outputName
      { outputName := "myproj", btype := some buildType.BUILD_STATICLINK } = "myproj" :=
  outputName_defaults_to_project_name "myproj"
    { build_name := none, build_type := some "static" } rfl
    { outputName := "myproj", btype := some buildType.BUILD_STATICLINK } rfl

/-- C6: when the requested named configuration is absent from the
[configurations] table, the build is not aborted: resolution returns
normally with no extra flags and the default output name, and the
not-found warning is emitted (src/main.cpp lines 392-396). -/
theorem unknown_config_falls_back (defaultOutput : String)
    (table : List (String × NamedConfig)) (buildConfig : String)
    (hne : buildConfig ≠ "") (habs : table.lookup buildConfig = none) :
    resolveBuildConfig defaultOutput (some table) buildConfig =
      ([], defaultOutput, true) := by
  simp [resolveBuildConfig, habs, hne]

/-- Witness for C6: a table holding only a release entry, with an unknown
configuration requested. -/
theorem unknown_config_falls_back_witness :
    resolveBuildConfig "app" (some [("release", { flags := none, output := none })])
      "debug" = ([], "app", true) :=
  unknown_config_falls_back "app" [("release", { flags := none, output := none })]
    "debug" (by decide) (by decide)

/-- C9: the build_type dispatch of getProjectSettings maps "executable" to
the executable kind, "static" to the static-archive kind, "shared" and
"dynamic" to the shared-library kind, a missing build_type (value_or gives
the literal "_default") and the literal "_default" to the executable kind,
and every other string to the invalid-build-type exception aborting the
load. -/
theorem build_type_mapping (projName : String) (bn t : Option String) :
    Except.map BuildSettings.btype
        (parseBuildSettings projName (some { build_name := bn, build_type := t })) =
      (if t = none ∨ t = some "_default" ∨ t = some "executable" then
         Except.ok (some buildType.BUILD_EXECUTABLE)
       else if t = some "shared" ∨ t = some "dynamic" then
         Except.ok (some buildType.BUILD_DYNAMICLINK)
       else if t = some "static" then
         Except.ok (some buildType.BUILD_STATICLINK)
       else Except.error "Invalid configuration: Invalid build type!") := by
  cases t with
  | none => simp [parseBuildSettings, parseBuildType, Except.map]
  | some s =>
    by_cases h1 : s = "executable" <;> by_cases h2 : s = "_default" <;>
      by_cases h3 : s = "shared" <;> by_cases h4 : s = "dynamic" <;>
        by_cases h5 : s = "static" <;>
          simp_all [parseBuildSettings, parseBuildType, Except.map]

/-- C10: whenever the global document's project table carries the literal
name "no name" or path "no path", or the toolchain table carries any of
the sentinel literals "no compiler", "no path", "no version" — whether
because the key is absent or because it was legitimately set to that exact
string — getCurrentProject fails with one of the two not-configured
errors, so such a configuration is indistinguishable from an unset one. -/
theorem sentinel_values_rejected (p : GlobalProjectTable) (t : GlobalToolchainTable)
    (h : p.name = some "no name" ∨ p.path = some "no path" ∨
         t.compiler = some "no compiler" ∨ t.path = some "no path" ∨
         t.version = some "no version") :
    getCurrentProject { project := some p, toolchain := some t } =
        Except.error "No project set! Use cppx project set." ∨
    getCurrentProject { project := some p, toolchain := some t } =
        Except.error "No toolchain set, run cppx profile." := by
  rcases h with h | h | h | h | h
  · left
    simp [getCurrentProject, h]
  · left
    simp [getCurrentProject, h]
  all_goals
    simp only [getCurrentProject]
  all_goals
    by_cases hn : (p.name.getD "no name" == "no name" ||
        p.path.getD "no path" == "no path") = true
  all_goals
    first
      | (left; rw [if_pos hn])
      | (right; rw [if_neg hn]; simp [h])

/-- Witness for C10: a project explicitly named with the literal string
"no name", everything else legitimately configured, is rejected. -/
theorem sentinel_values_rejected_witness :
    getCurrentProject { project := some { name := some "no name", path := some "/home/u/p" },
                        toolchain := some { compiler := some "gcc",
                                            path := some "/usr/bin/gcc",
                                            version := some "13" } } =
        Except.error "No project set! Use cppx project set." ∨
    getCurrentProject { project := some { name := some "no name", path := some "/home/u/p" },
                        toolchain := some { compiler := some "gcc",
                                            path := some "/usr/bin/gcc",
                                            version := some "13" } } =
        Except.error "No toolchain set, run cppx profile." :=
  sentinel_values_rejected { name := some "no name", path := some "/home/u/p" }
    { compiler := some "gcc", path := some "/usr/bin/gcc", version := some "13" }
    (Or.inl rfl)

end Cppx
